import Mathlib

/-!
Shallow embedding of the RenderStream-UE plugin core, for checking the
natural-language specification against the code.

Sources embedded:
- `Source/RenderStream/Public/RenderStreamLink.h` — `ScopedSchema` ownership
  tree (`reset`, move construction / move assignment, destructor).
- `Source/RenderStream/Private/FrameStream.cpp` — `FFrameStream::Setup` and
  `FFrameStream::SendFrame_RenderingThread` (fence stride, normalized
  sub-rectangle).
- `Source/RenderStream/Private/SceneSelector_StreamingLevels.cpp` —
  `OnLoadedSchema`, `ApplyScene`, `ValidateLevel`.
- `Source/RenderStreamEditor/Private/RenderStreamEditorModule.cpp` —
  `ConvertFields`, `GenerateScene`.

Heap allocations are modelled by abstract identifiers: a pointer is
`Option Nat` (`none` = nullptr).  `free` on a pointer emits its identifier
(freeing a null pointer emits nothing, as `free(nullptr)` is a no-op), so the
list of identifiers emitted by a code path records which allocations were
released and how many times.  Machine floats that the code merely divides or
copies are modelled as rationals.
-/

/-! ### ScopedSchema ownership tree (RenderStreamLink.h lines 270-331) -/

/-- A raw pointer: `none` is `nullptr`, `some a` points at allocation `a`. -/
abbrev Ptr := Option Nat

/-- Model of `free(p)`: emits the identifier of the released allocation; freeing a null
pointer releases nothing. -/
def freeList (p : Ptr) : List Nat := p.toList

/-- Pointer skeleton of `RenderStreamLink::RemoteParameter`: the owned string
fields, the option strings and the options array.  Scalar fields are omitted:
`reset` never touches them. -/
structure RemoteParameter where
  group : Ptr
  displayName : Ptr
  key : Ptr
  options : List Ptr
  optionsArr : Ptr
deriving DecidableEq

/-- Pointer skeleton of `RenderStreamLink::RemoteParameters` (one scene): the
owned name, the parameter records held in the parameters array, and the
parameters array allocation itself. -/
structure RemoteParameters where
  name : Ptr
  parameters : List RemoteParameter
  parametersArr : Ptr
deriving DecidableEq

/-- Pointer skeleton of `RenderStreamLink::Schema`: channel strings, the
channels array, scene records and the scenes array. -/
structure Schema where
  channels : List Ptr
  channelsArr : Ptr
  scenes : List RemoteParameters
  scenesArr : Ptr
deriving DecidableEq

/-- Allocations released for one parameter by `ScopedSchema::reset`, in source
order: `group`, `displayName`, `key`, each `options[k]`, then the `options`
array. -/
def RemoteParameter.frees (p : RemoteParameter) : List Nat :=
  freeList p.group ++ freeList p.displayName ++ freeList p.key ++
    p.options.flatMap freeList ++ freeList p.optionsArr

/-- Allocations released for one scene by `ScopedSchema::reset`, in source
order: the scene `name`, every parameter's allocations, then the `parameters`
array. -/
def RemoteParameters.frees (s : RemoteParameters) : List Nat :=
  freeList s.name ++ s.parameters.flatMap RemoteParameter.frees ++
    freeList s.parametersArr

/-- All allocations released by `ScopedSchema::reset` on a schema, in source
order: each channel string, the channels array, each scene's allocations, then
the scenes array. -/
def Schema.frees (s : Schema) : List Nat :=
  s.channels.flatMap freeList ++ freeList s.channelsArr ++
    s.scenes.flatMap RemoteParameters.frees ++ freeList s.scenesArr

/-- The state `ScopedSchema::clear()` leaves behind: zero counts, null
pointers. -/
def Schema.empty : Schema :=
  { channels := [], channelsArr := none, scenes := [], scenesArr := none }

/-- The `RenderStreamLink::ScopedSchema` wrapper: an owning wrapper around a `Schema`. -/
structure ScopedSchema where
  schema : Schema
deriving DecidableEq

/-- Embedding of `ScopedSchema::reset()`: deep-frees every owned allocation (returning the
emitted identifiers) and then `clear()`s the tree to the empty state. -/
def ScopedSchema.reset (s : ScopedSchema) : List Nat × ScopedSchema :=
  (s.schema.frees, ⟨Schema.empty⟩)

/-- Embedding of `ScopedSchema::~ScopedSchema()`: calls `reset()`; returns the identifiers
released at destruction. -/
def ScopedSchema.destroy (s : ScopedSchema) : List Nat :=
  s.reset.1

/-- Embedding of the move constructor `ScopedSchema(ScopedSchema&& other)`: `schema = std::move(other.schema)`
copies the trivially-copyable pointer struct, then `other.reset()` runs on the
source, which still holds the same pointers.  Returns (the constructed
destination, the source afterwards, the identifiers freed during the
constructor). -/
def ScopedSchema.moveConstruct (other : ScopedSchema) :
    ScopedSchema × ScopedSchema × List Nat :=
  let dst : ScopedSchema := ⟨other.schema⟩
  let r := other.reset
  (dst, r.2, r.1)

/-- Embedding of the move assignment `operator=(ScopedSchema&& other)`: overwrites `this->schema` with the
pointer copy of `other.schema` (the previous contents of `this` are never
released), then `other.reset()`.  Returns (this afterwards, other afterwards,
the identifiers freed during the assignment). -/
def ScopedSchema.moveAssign (_this other : ScopedSchema) :
    ScopedSchema × ScopedSchema × List Nat :=
  let this' : ScopedSchema := ⟨other.schema⟩
  let r := other.reset
  (this', r.2, r.1)

/-- Every identifier released across the whole lifetime of a move-construction
pair: the frees emitted inside the move constructor, then the destination's
destructor, then the source's destructor. -/
def ScopedSchema.moveLifetimeFrees (other : ScopedSchema) : List Nat :=
  let r := ScopedSchema.moveConstruct other
  r.2.2 ++ r.1.destroy ++ r.2.1.destroy

/-! ### FFrameStream (FrameStream.cpp) -/

/-- The `RenderStreamLink::ProjectionClipping` struct (floats as rationals). -/
structure ProjectionClipping where
  left : ℚ
  right : ℚ
  top : ℚ
  bottom : ℚ
deriving DecidableEq

/-- The engine's `FIntPoint`. -/
structure FIntPoint where
  x : ℤ
  y : ℤ
deriving DecidableEq

/-- The engine's `FIntRect`, by its endpoints: `Min.X`, `Min.Y`, `Max.X`, `Max.Y`. -/
structure FIntRect where
  minX : ℤ
  minY : ℤ
  maxX : ℤ
  maxY : ℤ
deriving DecidableEq

/-- State of an `FFrameStream`: the stream name, the owned buffer texture and
fence (allocation identifiers, `none` = null), the fence counter, the stream
handle (`0` = unbound) and the cached channel / clipping / resolution. -/
structure FFrameStream where
  m_streamName : String
  m_bufTexture : Option Nat
  m_fence : Option Nat
  m_fenceValue : ℤ
  m_handle : Nat
  m_channel : String
  m_clipping : ProjectionClipping
  m_resolution : FIntPoint
deriving DecidableEq

/-- Embedding of `FFrameStream::Setup` (FrameStream.cpp lines 23-46).  Returns early with
`false` if a handle is already bound; otherwise assigns `m_handle`,
`m_channel`, `m_clipping`, `m_resolution` and `m_streamName`, then calls
`RSUCHelpers::CreateStreamResources` (an external collaborator, modelled by the
`allocResult` oracle: `none` = allocation failed, `some (tex, fen)` = the
allocated texture and fence); on failure returns `false` (fields already
assigned); finally fails with `false` if the bound handle is `0`, else returns
`true`. -/
def FFrameStream.Setup (s : FFrameStream) (name : String) (Resolution : FIntPoint)
    (Channel : String) (Clipping : ProjectionClipping) (Handle : Nat)
    (allocResult : Option (Nat × Nat)) : Bool × FFrameStream :=
  if s.m_handle ≠ 0 then
    (false, s)
  else
    let s1 : FFrameStream :=
      { s with m_handle := Handle, m_channel := Channel, m_clipping := Clipping,
               m_resolution := Resolution, m_streamName := name }
    match allocResult with
    | none => (false, s1)
    | some (tex, fen) =>
      let s2 : FFrameStream := { s1 with m_bufTexture := some tex, m_fence := some fen }
      if s2.m_handle = 0 then (false, s2) else (true, s2)

/-- The normalized sub-rectangle computed at the top of
`FFrameStream::SendFrame_RenderingThread` (FrameStream.cpp lines 15-18):
`(ULeft, URight, VTop, VBottom) = (Min.X / SizeX, Max.X / SizeX,
Min.Y / SizeY, Max.Y / SizeY)`. -/
def normalizedSubRect (srcSizeX srcSizeY : ℤ) (rect : FIntRect) : ℚ × ℚ × ℚ × ℚ :=
  ((rect.minX : ℚ) / (srcSizeX : ℚ), (rect.maxX : ℚ) / (srcSizeX : ℚ),
   (rect.minY : ℚ) / (srcSizeY : ℚ), (rect.maxY : ℚ) / (srcSizeY : ℚ))

/-- State effect of `FFrameStream::SendFrame_RenderingThread` (lines 13-21):
after handing the frame to `RSUCHelpers::SendFrame` (external collaborator),
`m_fenceValue += 2`. -/
def FFrameStream.SendFrame_RenderingThread (s : FFrameStream) : FFrameStream :=
  { s with m_fenceValue := s.m_fenceValue + 2 }

/-- Iterates `n` successive successful frame sends. -/
def FFrameStream.sendN (s : FFrameStream) : Nat → FFrameStream
  | 0 => s
  | n + 1 => (s.sendN n).SendFrame_RenderingThread

/-! ### SceneSelector_StreamingLevels (SceneSelector_StreamingLevels.cpp)

External engine state is modelled explicitly: a streaming level carries the
short name `findStreamingLevelByName` compares against (the engine-side
`GetShortName` / prefix stripping is the external collaborator producing it),
its `IsLevelLoaded` flag, its `ShouldBeVisible` flag and its level script
actor.  `ValidateParameters` lives in the selector base class outside the
given sources; it is modelled by an oracle `validate : Nat → Bool` giving its
result per scene id, and the model records whether and with which result
`ValidateLevel` ran.  `ApplyParameters` (base class) is recorded as the list
of content roots it was handed, `UGameplayStatics::LoadStreamLevel` as a
`loadRequested` flag, and the `check(...)` assertion as a `checkFailed`
flag. -/

/-- A `ULevelStreaming` as seen by the selector. -/
structure ULevelStreaming where
  levelName : String
  isLevelLoaded : Bool
  shouldBeVisible : Bool
  levelScriptActor : Option Nat
deriving DecidableEq

/-- A `UWorld` as seen by the selector: the persistent level's script actor
and the streaming level list (levels are referred to by index). -/
structure UWorld where
  persistentRootActor : Option Nat
  streamingLevels : List ULevelStreaming
deriving DecidableEq

/-- Embedding of `findStreamingLevelByName` (lines 6-17): the first streaming level whose
computed short name equals `FindName`, or null. -/
def findStreamingLevelByName (w : UWorld) (findName : String) : Option Nat :=
  w.streamingLevels.findIdx? (fun lvl => lvl.levelName == findName)

/-- Reads `streamingLevel->IsLevelLoaded()` for the level at `idx` (false if the
reference is dangling). -/
def levelIsLoadedAt (w : UWorld) (idx : Nat) : Bool :=
  ((w.streamingLevels[idx]?).map ULevelStreaming.isLevelLoaded).getD false

/-- The `SchemaSpec` record (the per-scene binding in `m_specs`). -/
structure SchemaSpec where
  streamingLevel : Option Nat
  persistentRoot : Option Nat
  hash : Nat
  nParameters : Nat
  loaded : Bool
deriving DecidableEq

/-- A scene entry of the incoming schema as read by `OnLoadedSchema`:
`RenderStreamLink::RemoteParameters` reduced to the fields the selector
reads. -/
structure RemoteParametersDecl where
  name : String
  nParameters : Nat
  hash : Nat
deriving DecidableEq

/-- The condition `!streamingLevel || streamingLevel->IsLevelLoaded()`
(line 37). -/
def sceneContentReady (w : UWorld) (sl : Option Nat) : Bool :=
  match sl with
  | none => true
  | some idx => levelIsLoadedAt w idx

/-- One iteration of the `OnLoadedSchema` loop (lines 25-46) for scene `i`:
fills the spec and, when the content is ready, marks it loaded and runs
`ValidateLevel i` (recorded as `some (validate i)`); otherwise leaves it
unloaded with validation skipped (`none`). -/
def processScene (w : UWorld) (validate : Nat → Bool) (i : Nat)
    (scene : RemoteParametersDecl) : SchemaSpec × Option Bool :=
  let streamingLevel := findStreamingLevelByName w scene.name
  if sceneContentReady w streamingLevel then
    ({ streamingLevel := streamingLevel, persistentRoot := w.persistentRootActor,
       hash := scene.hash, nParameters := scene.nParameters, loaded := true },
     some (validate i))
  else
    ({ streamingLevel := streamingLevel, persistentRoot := w.persistentRootActor,
       hash := scene.hash, nParameters := scene.nParameters, loaded := false },
     none)

/-- The `OnLoadedSchema` loop over all scenes, starting at index `i`. -/
def processScenes (w : UWorld) (validate : Nat → Bool) :
    Nat → List RemoteParametersDecl → List (SchemaSpec × Option Bool)
  | _, [] => []
  | i, scene :: rest =>
    processScene w validate i scene :: processScenes w validate (i + 1) rest

/-- Result of `OnLoadedSchema`: the return value, the rebuilt `m_specs`, and
per scene whether `ValidateLevel` ran and what it returned. -/
structure OnLoadedResult where
  ok : Bool
  specs : List SchemaSpec
  validations : List (Option Bool)
deriving DecidableEq

/-- Embedding of `SceneSelector_StreamingLevels::OnLoadedSchema` (lines 19-49): resizes
`m_specs` to the scene count, processes every scene in order, and returns
`true` unconditionally (per-scene validation failures are only logged). -/
def OnLoadedSchema (w : UWorld) (scenes : List RemoteParametersDecl)
    (validate : Nat → Bool) : OnLoadedResult :=
  let processed := processScenes w validate 0 scenes
  { ok := true, specs := processed.map Prod.fst,
    validations := processed.map Prod.snd }

/-- Effect of one activation-loop iteration (lines 90-108) on the level at
index `j`: the spec's own level becomes visible if loaded (parameters are
applied there); any other level is hidden when the spec has a streaming level;
when the spec has no streaming level the loop body touches nothing. -/
def activateLevel (spec : SchemaSpec) (j : Nat) (l : ULevelStreaming) :
    ULevelStreaming :=
  if spec.streamingLevel = some j then
    (if l.isLevelLoaded then { l with shouldBeVisible := true } else l)
  else if spec.streamingLevel = none then l
  else { l with shouldBeVisible := false }

/-- The activation loop over the world's streaming levels, `j` the index of
the head. -/
def activateLevels (spec : SchemaSpec) :
    Nat → List ULevelStreaming → List ULevelStreaming
  | _, [] => []
  | j, l :: rest => activateLevel spec j l :: activateLevels spec (j + 1) rest

/-- The `ApplyParameters` call made inside the activation loop, if any: the
spec's persistent root and its level's script actor, passed when the spec's
streaming level is loaded. -/
def loopApplied (w : UWorld) (spec : SchemaSpec) : Option (List (Option Nat)) :=
  match spec.streamingLevel with
  | none => none
  | some idx =>
    match w.streamingLevels[idx]? with
    | none => none
    | some l =>
      if l.isLevelLoaded then some [spec.persistentRoot, l.levelScriptActor]
      else none

/-- Observable outcome of one `ApplyScene` call: the world and `m_specs`
afterwards, whether the out-of-range error was logged, whether the
`check(spec.streamingLevel != nullptr)` assertion failed, whether
`LoadStreamLevel` was requested, the roots handed to `ApplyParameters` (if
called), and whether/with what result `ValidateLevel` ran. -/
structure ApplyResult where
  world : UWorld
  specs : List SchemaSpec
  outOfRangeError : Bool
  checkFailed : Bool
  loadRequested : Bool
  appliedParams : Option (List (Option Nat))
  validated : Option Bool
deriving DecidableEq

/-- Activation part of `ApplyScene` (lines 78-109): the base-level branch
hides every streaming level and applies only the persistent root's
parameters; otherwise the loop `activateLevels` runs. -/
def activate (w : UWorld) (specs : List SchemaSpec) (spec : SchemaSpec)
    (validated : Option Bool) : ApplyResult :=
  let persistentRoot := w.persistentRootActor
  if spec.streamingLevel = none ∧ spec.persistentRoot = persistentRoot then
    { world := { w with streamingLevels :=
        w.streamingLevels.map (fun l => { l with shouldBeVisible := false }) },
      specs := specs, outOfRangeError := false, checkFailed := false,
      loadRequested := false, appliedParams := some [persistentRoot],
      validated := validated }
  else
    { world := { w with streamingLevels := activateLevels spec 0 w.streamingLevels },
      specs := specs, outOfRangeError := false, checkFailed := false,
      loadRequested := false, appliedParams := loopApplied w spec,
      validated := validated }

/-- Embedding of `SceneSelector_StreamingLevels::ApplyScene` (lines 51-110). -/
def ApplyScene (w : UWorld) (specs : List SchemaSpec) (validate : Nat → Bool)
    (sceneId : Nat) : ApplyResult :=
  match specs[sceneId]? with
  | none =>
    { world := w, specs := specs, outOfRangeError := true, checkFailed := false,
      loadRequested := false, appliedParams := none, validated := none }
  | some spec0 =>
    if spec0.loaded then
      activate w specs spec0 none
    else
      match spec0.streamingLevel with
      | none =>
        { world := w, specs := specs, outOfRangeError := false,
          checkFailed := true, loadRequested := false, appliedParams := none,
          validated := none }
      | some idx =>
        if levelIsLoadedAt w idx then
          let spec1 := { spec0 with loaded := true }
          activate w (specs.set sceneId spec1) spec1 (some (validate sceneId))
        else
          { world := w, specs := specs, outOfRangeError := false,
            checkFailed := false, loadRequested := true, appliedParams := none,
            validated := none }

/-! ### GenerateScene / ConvertFields (RenderStreamEditorModule.cpp)

Value-level model: `_strdup` copies string contents, so strings are compared
by value; floats are copied verbatim and modelled as rationals. -/

/-- The `FRenderStreamExposedParameterEntry` struct (the cached exposed parameter). -/
structure FRenderStreamExposedParameterEntry where
  Group : String
  DisplayName : String
  Key : String
  Min : ℚ
  Max : ℚ
  Step : ℚ
  DefaultValue : ℚ
  Options : List String
deriving DecidableEq

/-- The value contents of a `RenderStreamLink::RemoteParameter` written by
`ConvertFields`. -/
structure RemoteParameterData where
  group : String
  displayName : String
  key : String
  min : ℚ
  max : ℚ
  step : ℚ
  defaultValue : ℚ
  nOptions : Nat
  options : List String
  dmxOffset : ℤ
  dmxType : Nat
deriving DecidableEq

/-- The body of the `ConvertFields` loop (RenderStreamEditorModule.cpp lines
137-156) for one entry: every field is copied (strings via `_strdup`, options
duplicated in order), `dmxOffset` is set to `-1` and `dmxType` to `2`. -/
def convertField (entry : FRenderStreamExposedParameterEntry) : RemoteParameterData :=
  { group := entry.Group, displayName := entry.DisplayName, key := entry.Key,
    min := entry.Min, max := entry.Max, step := entry.Step,
    defaultValue := entry.DefaultValue, nOptions := entry.Options.length,
    options := entry.Options, dmxOffset := -1, dmxType := 2 }

/-- Embedding of `ConvertFields` (lines 135-157): writes `convertField` of each input entry
through the output iterator, in order. -/
def ConvertFields (input : List FRenderStreamExposedParameterEntry) :
    List RemoteParameterData :=
  input.map convertField

/-- The `URenderStreamChannelCacheAsset` asset reduced to the fields `GenerateScene`
reads: the level's short name and the exposed-parameter cache. -/
structure ChannelCacheAsset where
  levelShortName : String
  ExposedParams : List FRenderStreamExposedParameterEntry
deriving DecidableEq

/-- The scene entry (`RenderStreamLink::RemoteParameters`) filled in by
`GenerateScene`, at value level. -/
structure SceneParametersData where
  name : String
  nParameters : Nat
  parameters : List RemoteParameterData
deriving DecidableEq

/-- Evaluates `persistent ? persistent->ExposedParams : ...` — the persistent cache's
exposed parameters, empty when there is no persistent cache. -/
def persistentParams : Option ChannelCacheAsset → List FRenderStreamExposedParameterEntry
  | none => []
  | some c => c.ExposedParams

/-- Embedding of `GenerateScene` (RenderStreamEditorModule.cpp lines 267-285): the scene
name is the cache level's short name; `nParameters` is the persistent cache's
count (0 when absent) plus the scene cache's count; the parameter array is
filled by `ConvertFields` of the persistent parameters at offset 0 followed by
`ConvertFields` of the scene cache's parameters. -/
def GenerateScene (cache : ChannelCacheAsset) (persistent : Option ChannelCacheAsset) :
    SceneParametersData :=
  { name := cache.levelShortName,
    nParameters := (persistentParams persistent).length + cache.ExposedParams.length,
    parameters := ConvertFields (persistentParams persistent) ++
      ConvertFields cache.ExposedParams }

/-! ### Concrete instances used by closed counterexamples and witnesses -/

/-- A schema parameter owning five distinct allocations. -/
def demoParameter : RemoteParameter :=
  { group := some 3, displayName := some 4, key := some 5, options := [some 6],
    optionsArr := some 7 }

/-- A scene owning `demoParameter` plus its own name and parameters array. -/
def demoScene : RemoteParameters :=
  { name := some 8, parameters := [demoParameter], parametersArr := some 9 }

/-- A fully populated schema: one channel string, one scene, all allocation
identifiers distinct. -/
def demoSchema : Schema :=
  { channels := [some 1], channelsArr := some 2, scenes := [demoScene],
    scenesArr := some 10 }

/-- A second populated schema, its allocations disjoint from `demoSchema`. -/
def demoSchemaB : Schema :=
  { channels := [some 30], channelsArr := some 31, scenes := [], scenesArr := none }

/-- Every identifier released across the whole lifetime of a move-assignment
pair `target = std::move(source)`: the frees emitted inside the assignment,
then the target's destructor, then the source's destructor. -/
def ScopedSchema.moveAssignLifetimeFrees (target source : ScopedSchema) : List Nat :=
  let r := ScopedSchema.moveAssign target source
  r.2.2 ++ r.1.destroy ++ r.2.1.destroy

/-- A default clipping rectangle. -/
def demoClipping : ProjectionClipping :=
  { left := 0, right := 1, top := 0, bottom := 1 }

/-- A freshly constructed `FFrameStream` (the constructor initialises
`m_streamName` to the empty string, `m_bufTexture` to null and `m_handle` to
`0`). -/
def demoStream : FFrameStream :=
  { m_streamName := "", m_bufTexture := none, m_fence := none, m_fenceValue := 0,
    m_handle := 0, m_channel := "", m_clipping := demoClipping,
    m_resolution := { x := 0, y := 0 } }

/-- A stream that already holds a bound handle. -/
def demoBoundStream : FFrameStream :=
  { demoStream with m_handle := 7, m_bufTexture := some 1, m_fence := some 2 }

/-- The `Forest` streaming level, loaded or not according to the flag. -/
def forestLevel (loadedFlag : Bool) : ULevelStreaming :=
  { levelName := "Forest", isLevelLoaded := loadedFlag, shouldBeVisible := false,
    levelScriptActor := some 21 }

/-- A world holding the persistent root actor and the single `Forest`
streaming level. -/
def demoWorld (loadedFlag : Bool) : UWorld :=
  { persistentRootActor := some 20, streamingLevels := [forestLevel loadedFlag] }

/-- A schema declaring scenes `Base` (matching no streaming level) and
`Forest`. -/
def demoScenes : List RemoteParametersDecl :=
  [{ name := "Base", nParameters := 2, hash := 11 },
   { name := "Forest", nParameters := 3, hash := 12 }]

/-- The `Forest` binding before its level is loaded. -/
def forestSpec : SchemaSpec :=
  { streamingLevel := some 0, persistentRoot := some 20, hash := 12,
    nParameters := 3, loaded := false }

/-- The bindings produced for `demoScenes` against an unloaded world: `Base`
is loaded (no streaming level), `Forest` awaits loading. -/
def demoSpecs : List SchemaSpec :=
  [{ streamingLevel := none, persistentRoot := some 20, hash := 11,
     nParameters := 2, loaded := true },
   forestSpec]

/-! ### Helper lemmas -/

theorem FFrameStream.sendN_fenceValue (s : FFrameStream) (n : Nat) :
    (s.sendN n).m_fenceValue = s.m_fenceValue + 2 * n := by
  induction n with
  | zero => simp [FFrameStream.sendN]
  | succ k ih =>
    simp [FFrameStream.sendN, FFrameStream.SendFrame_RenderingThread, ih]
    ring

theorem activate_checkFailed (w : UWorld) (specs : List SchemaSpec)
    (spec : SchemaSpec) (validated : Option Bool) :
    (activate w specs spec validated).checkFailed = false := by
  unfold activate
  by_cases h : spec.streamingLevel = none ∧ spec.persistentRoot = w.persistentRootActor <;>
    simp [h]

theorem activateLevels_getElem? (spec : SchemaSpec) (j0 : Nat)
    (ls : List ULevelStreaming) (j : Nat) :
    (activateLevels spec j0 ls)[j]? = (ls[j]?).map (activateLevel spec (j0 + j)) := by
  induction ls generalizing j0 j with
  | nil => simp [activateLevels]
  | cons head tail ih =>
    cases j with
    | zero => simp [activateLevels]
    | succ k =>
      have hrec := ih (j0 + 1) k
      simp only [activateLevels, List.getElem?_cons_succ, hrec]
      have : j0 + 1 + k = j0 + (k + 1) := by omega
      rw [this]

theorem processScenes_getElem? (w : UWorld) (validate : Nat → Bool) (i0 : Nat)
    (scenes : List RemoteParametersDecl) (i : Nat) :
    (processScenes w validate i0 scenes)[i]? =
      (scenes[i]?).map (processScene w validate (i0 + i)) := by
  induction scenes generalizing i0 i with
  | nil => simp [processScenes]
  | cons head tail ih =>
    cases i with
    | zero => simp [processScenes]
    | succ k =>
      have hrec := ih (i0 + 1) k
      simp only [processScenes, List.getElem?_cons_succ, hrec]
      have : i0 + 1 + k = i0 + (k + 1) := by omega
      rw [this]

theorem processScenes_length (w : UWorld) (validate : Nat → Bool) (i0 : Nat)
    (scenes : List RemoteParametersDecl) :
    (processScenes w validate i0 scenes).length = scenes.length := by
  induction scenes generalizing i0 with
  | nil => rfl
  | cons head tail ih => simp [processScenes, ih]

/-! ### Claim theorems -/

/-- C1: the claim states that `ScopedSchema` move construction / move
assignment transfer ownership of every nested allocation to the destination,
leave the source empty-but-valid, release each allocation exactly once across
both lifetimes, release the destination's old contents on move-assignment,
and leave the destination's pointers referring to live allocations.  The code
violates this: `schema = std::move(other.schema)` copies the raw pointer
struct and the subsequent `other.reset()` deep-frees the very allocations
just copied, so on a populated schema the move itself frees the whole tree
(the destination's pointers are dangling immediately after the move), across
both lifetimes every allocation is freed twice, and move-assignment never
frees the destination's old contents (count 0: a leak). -/
theorem scopedSchema_move_releases_transferred_allocations :
    (ScopedSchema.moveConstruct ⟨demoSchema⟩).2.2 = demoSchema.frees ∧
    demoSchema.frees = [1, 2, 8, 3, 4, 5, 6, 7, 9, 10] ∧
    (ScopedSchema.moveConstruct ⟨demoSchema⟩).1.schema = demoSchema ∧
    (1 ∈ (ScopedSchema.moveConstruct ⟨demoSchema⟩).2.2) ∧
    (ScopedSchema.moveLifetimeFrees ⟨demoSchema⟩).count 1 = 2 ∧
    (ScopedSchema.moveAssignLifetimeFrees ⟨demoSchemaB⟩ ⟨demoSchema⟩).count 1 = 2 ∧
    (ScopedSchema.moveAssignLifetimeFrees ⟨demoSchemaB⟩ ⟨demoSchema⟩).count 30 = 0 := by
  decide

/-- C8: `ScopedSchema::reset` deep-frees every owned allocation (in the
deterministic traversal order), resets the tree to the empty state, and is
idempotent: the second `reset` frees nothing and keeps the empty state, so
across two consecutive `reset` calls each allocation of a well-formed tree
(distinct allocation identifiers) is freed exactly once; the destructor
performs exactly one `reset`. -/
theorem scopedSchema_reset_idempotent (s : ScopedSchema)
    (h : s.schema.frees.Nodup) :
    s.reset.1 = s.schema.frees ∧
    s.reset.2 = ⟨Schema.empty⟩ ∧
    s.reset.2.reset.1 = [] ∧
    s.reset.2.reset.2 = ⟨Schema.empty⟩ ∧
    s.destroy = s.reset.1 ∧
    ∀ a ∈ s.schema.frees, (s.reset.1 ++ s.reset.2.reset.1).count a = 1 := by
  refine ⟨rfl, rfl, rfl, rfl, rfl, ?_⟩
  intro a ha
  show (s.schema.frees ++ Schema.empty.frees).count a = 1
  have he : Schema.empty.frees = [] := rfl
  rw [he, List.append_nil]
  exact List.count_eq_one_of_mem h ha

/-- Witness for C8 at the concrete populated schema `demoSchema`. -/
theorem scopedSchema_reset_idempotent_witness :
    (ScopedSchema.mk demoSchema).reset.1 = (ScopedSchema.mk demoSchema).schema.frees ∧
    (ScopedSchema.mk demoSchema).reset.2 = ⟨Schema.empty⟩ ∧
    (ScopedSchema.mk demoSchema).reset.2.reset.1 = [] ∧
    (ScopedSchema.mk demoSchema).reset.2.reset.2 = ⟨Schema.empty⟩ ∧
    (ScopedSchema.mk demoSchema).destroy = (ScopedSchema.mk demoSchema).reset.1 ∧
    ∀ a ∈ (ScopedSchema.mk demoSchema).schema.frees,
      ((ScopedSchema.mk demoSchema).reset.1 ++
        (ScopedSchema.mk demoSchema).reset.2.reset.1).count a = 1 :=
  scopedSchema_reset_idempotent ⟨demoSchema⟩ (by decide)

/-- C2 counterexample: the claim states that every failing `Setup` mutates no
state of the channel.  On an unbound stream with a failing resource
allocation, `Setup` returns `false` but has already overwritten `m_handle`
(and name/channel/clipping/resolution): the state after the call differs from
the state before. -/
theorem setup_alloc_failure_mutates_state :
    (demoStream.Setup "Stream" { x := 16, y := 16 } "Channel" demoClipping 5
        none).1 = false ∧
    demoStream.m_handle = 0 ∧
    (demoStream.Setup "Stream" { x := 16, y := 16 } "Channel" demoClipping 5
        none).2.m_handle = 5 ∧
    (demoStream.Setup "Stream" { x := 16, y := 16 } "Channel" demoClipping 5
        none).2 ≠ demoStream := by
  decide

/-- C2 (amended): `Setup` fails with no state mutation only when a handle is
already bound — that early return leaves the first binding's state (handle,
name, channel, clipping, resolution, texture, fence) untouched, so a second
`Setup` on a bound channel cannot disturb the first binding.  In every other
failure path the fields `m_handle`, `m_channel`, `m_clipping`,
`m_resolution`, `m_streamName` have already been overwritten before the
failure is reported: on allocation failure `Setup` returns `false` with those
five fields updated, and on a zero handle after a successful allocation it
returns `false` with those fields plus the fresh texture and fence stored.
On success all fields are updated and `true` is returned. -/
theorem setup_characterization (s : FFrameStream) (name : String)
    (res : FIntPoint) (ch : String) (cl : ProjectionClipping) (H : Nat)
    (alloc : Option (Nat × Nat)) :
    (s.m_handle ≠ 0 → s.Setup name res ch cl H alloc = (false, s)) ∧
    (s.m_handle = 0 → alloc = none →
      s.Setup name res ch cl H alloc =
        (false, { s with m_handle := H, m_channel := ch, m_clipping := cl,
                         m_resolution := res, m_streamName := name })) ∧
    (∀ tex fen, s.m_handle = 0 → alloc = some (tex, fen) → H = 0 →
      s.Setup name res ch cl H alloc =
        (false, { s with m_handle := H, m_channel := ch, m_clipping := cl,
                         m_resolution := res, m_streamName := name,
                         m_bufTexture := some tex, m_fence := some fen })) ∧
    (∀ tex fen, s.m_handle = 0 → alloc = some (tex, fen) → H ≠ 0 →
      s.Setup name res ch cl H alloc =
        (true, { s with m_handle := H, m_channel := ch, m_clipping := cl,
                        m_resolution := res, m_streamName := name,
                        m_bufTexture := some tex, m_fence := some fen })) := by
  refine ⟨?_, ?_, ?_, ?_⟩
  · intro h
    simp [FFrameStream.Setup, h]
  · intro h ha
    subst ha
    simp [FFrameStream.Setup, h]
  · intro tex fen h ha hH
    subst ha
    subst hH
    simp [FFrameStream.Setup, h]
  · intro tex fen h ha hH
    subst ha
    simp [FFrameStream.Setup, h, hH]

/-- Witness for C2 (amended): all four `Setup` paths at concrete inputs. -/
theorem setup_characterization_witness :
    demoBoundStream.Setup "n" { x := 1, y := 1 } "c" demoClipping 5 none =
      (false, demoBoundStream) ∧
    demoStream.Setup "n" { x := 1, y := 1 } "c" demoClipping 5 none =
      (false, { demoStream with
                m_handle := 5, m_channel := "c", m_clipping := demoClipping,
                m_resolution := { x := 1, y := 1 }, m_streamName := "n" }) ∧
    demoStream.Setup "n" { x := 1, y := 1 } "c" demoClipping 0 (some (1, 2)) =
      (false, { demoStream with
                m_handle := 0, m_channel := "c", m_clipping := demoClipping,
                m_resolution := { x := 1, y := 1 }, m_streamName := "n",
                m_bufTexture := some 1, m_fence := some 2 }) ∧
    demoStream.Setup "n" { x := 1, y := 1 } "c" demoClipping 5 (some (1, 2)) =
      (true, { demoStream with
               m_handle := 5, m_channel := "c", m_clipping := demoClipping,
               m_resolution := { x := 1, y := 1 }, m_streamName := "n",
               m_bufTexture := some 1, m_fence := some 2 }) :=
  ⟨(setup_characterization demoBoundStream "n" { x := 1, y := 1 } "c"
      demoClipping 5 none).1 (by decide),
   (setup_characterization demoStream "n" { x := 1, y := 1 } "c"
      demoClipping 5 none).2.1 rfl rfl,
   (setup_characterization demoStream "n" { x := 1, y := 1 } "c"
      demoClipping 0 (some (1, 2))).2.2.1 1 2 rfl rfl rfl,
   (setup_characterization demoStream "n" { x := 1, y := 1 } "c"
      demoClipping 5 (some (1, 2))).2.2.2 1 2 rfl rfl (by decide)⟩

/-- C3: after `N` successful sends the fence value equals the initial value
plus `2 N`; the counter is monotone over sends; and parity is preserved, so a
fence that starts even is never observed odd by the submitting side
immediately after a send. -/
theorem fence_after_n_sends (s : FFrameStream) (n : Nat) :
    (s.sendN n).m_fenceValue = s.m_fenceValue + 2 * n ∧
    (∀ m, m ≤ n → (s.sendN m).m_fenceValue ≤ (s.sendN n).m_fenceValue) ∧
    ((s.sendN n).m_fenceValue % 2 = s.m_fenceValue % 2) ∧
    (s.m_fenceValue % 2 = 0 → (s.sendN n).m_fenceValue % 2 = 0) := by
  refine ⟨FFrameStream.sendN_fenceValue s n, ?_, ?_, ?_⟩
  · intro m hm
    rw [FFrameStream.sendN_fenceValue, FFrameStream.sendN_fenceValue]
    have hc : (m : ℤ) ≤ (n : ℤ) := by exact_mod_cast hm
    omega
  · rw [FFrameStream.sendN_fenceValue]
    omega
  · intro h
    rw [FFrameStream.sendN_fenceValue]
    omega

/-- Witness for C3 at a fresh stream and three sends. -/
theorem fence_after_n_sends_witness :
    (demoStream.sendN 3).m_fenceValue = demoStream.m_fenceValue + 2 * (3 : Nat) ∧
    (demoStream.sendN 2).m_fenceValue ≤ (demoStream.sendN 3).m_fenceValue ∧
    (demoStream.sendN 3).m_fenceValue % 2 = demoStream.m_fenceValue % 2 ∧
    (demoStream.sendN 3).m_fenceValue % 2 = 0 :=
  ⟨(fence_after_n_sends demoStream 3).1,
   (fence_after_n_sends demoStream 3).2.1 2 (by decide),
   (fence_after_n_sends demoStream 3).2.2.1,
   (fence_after_n_sends demoStream 3).2.2.2 (by decide)⟩

/-- C4: for a positive source size and a viewport rectangle contained in the
source image, the normalized sub-rectangle is computed as
`minX/srcWidth, maxX/srcWidth, minY/srcHeight, maxY/srcHeight` and satisfies
`0 ≤ uLeft ≤ uRight ≤ 1` and `0 ≤ vTop ≤ vBottom ≤ 1`. -/
theorem normalizedSubRect_bounds (W H : ℤ) (r : FIntRect)
    (hW : 0 < W) (hH : 0 < H) (h1 : 0 ≤ r.minX) (h2 : r.minX ≤ r.maxX)
    (h3 : r.maxX ≤ W) (h4 : 0 ≤ r.minY) (h5 : r.minY ≤ r.maxY)
    (h6 : r.maxY ≤ H) :
    (normalizedSubRect W H r).1 = (r.minX : ℚ) / (W : ℚ) ∧
    (normalizedSubRect W H r).2.1 = (r.maxX : ℚ) / (W : ℚ) ∧
    (normalizedSubRect W H r).2.2.1 = (r.minY : ℚ) / (H : ℚ) ∧
    (normalizedSubRect W H r).2.2.2 = (r.maxY : ℚ) / (H : ℚ) ∧
    0 ≤ (normalizedSubRect W H r).1 ∧
    (normalizedSubRect W H r).1 ≤ (normalizedSubRect W H r).2.1 ∧
    (normalizedSubRect W H r).2.1 ≤ 1 ∧
    0 ≤ (normalizedSubRect W H r).2.2.1 ∧
    (normalizedSubRect W H r).2.2.1 ≤ (normalizedSubRect W H r).2.2.2 ∧
    (normalizedSubRect W H r).2.2.2 ≤ 1 := by
  have hWq : (0 : ℚ) < (W : ℚ) := by exact_mod_cast hW
  have hHq : (0 : ℚ) < (H : ℚ) := by exact_mod_cast hH
  refine ⟨rfl, rfl, rfl, rfl, ?_, ?_, ?_, ?_, ?_, ?_⟩
  · exact div_nonneg (by exact_mod_cast h1) hWq.le
  · exact (div_le_div_iff_of_pos_right hWq).2 (by exact_mod_cast h2)
  · exact (div_le_one hWq).2 (by exact_mod_cast h3)
  · exact div_nonneg (by exact_mod_cast h4) hHq.le
  · exact (div_le_div_iff_of_pos_right hHq).2 (by exact_mod_cast h5)
  · exact (div_le_one hHq).2 (by exact_mod_cast h6)

/-- Witness for C4: a 16×8 source with viewport rectangle (2,1)-(10,8). -/
theorem normalizedSubRect_bounds_witness :
    (normalizedSubRect 16 8 { minX := 2, minY := 1, maxX := 10, maxY := 8 }).1 =
      ((2 : ℤ) : ℚ) / ((16 : ℤ) : ℚ) ∧
    (normalizedSubRect 16 8 { minX := 2, minY := 1, maxX := 10, maxY := 8 }).2.1 =
      ((10 : ℤ) : ℚ) / ((16 : ℤ) : ℚ) ∧
    (normalizedSubRect 16 8 { minX := 2, minY := 1, maxX := 10, maxY := 8 }).2.2.1 =
      ((1 : ℤ) : ℚ) / ((8 : ℤ) : ℚ) ∧
    (normalizedSubRect 16 8 { minX := 2, minY := 1, maxX := 10, maxY := 8 }).2.2.2 =
      ((8 : ℤ) : ℚ) / ((8 : ℤ) : ℚ) ∧
    0 ≤ (normalizedSubRect 16 8 { minX := 2, minY := 1, maxX := 10, maxY := 8 }).1 ∧
    (normalizedSubRect 16 8 { minX := 2, minY := 1, maxX := 10, maxY := 8 }).1 ≤
      (normalizedSubRect 16 8 { minX := 2, minY := 1, maxX := 10, maxY := 8 }).2.1 ∧
    (normalizedSubRect 16 8 { minX := 2, minY := 1, maxX := 10, maxY := 8 }).2.1 ≤ 1 ∧
    0 ≤ (normalizedSubRect 16 8 { minX := 2, minY := 1, maxX := 10, maxY := 8 }).2.2.1 ∧
    (normalizedSubRect 16 8 { minX := 2, minY := 1, maxX := 10, maxY := 8 }).2.2.1 ≤
      (normalizedSubRect 16 8 { minX := 2, minY := 1, maxX := 10, maxY := 8 }).2.2.2 ∧
    (normalizedSubRect 16 8 { minX := 2, minY := 1, maxX := 10, maxY := 8 }).2.2.2 ≤ 1 :=
  normalizedSubRect_bounds 16 8 { minX := 2, minY := 1, maxX := 10, maxY := 8 }
    (by decide) (by decide) (by decide) (by decide) (by decide) (by decide)
    (by decide) (by decide)

theorem activate_nonbase (w : UWorld) (specs : List SchemaSpec)
    (spec : SchemaSpec) (validated : Option Bool) (idx : Nat)
    (hsl : spec.streamingLevel = some idx) :
    activate w specs spec validated =
      { world := { w with streamingLevels := activateLevels spec 0 w.streamingLevels },
        specs := specs, outOfRangeError := false, checkFailed := false,
        loadRequested := false, appliedParams := loopApplied w spec,
        validated := validated } := by
  unfold activate
  rw [if_neg]
  simp [hsl]

theorem levelIsLoadedAt_eq_true (w : UWorld) (idx : Nat)
    (h : levelIsLoadedAt w idx = true) :
    ∃ l, w.streamingLevels[idx]? = some l ∧ l.isLevelLoaded = true := by
  unfold levelIsLoadedAt at h
  cases hw : w.streamingLevels[idx]? with
  | none => rw [hw] at h; simp at h
  | some l => rw [hw] at h; simp at h; exact ⟨l, rfl, h⟩

theorem processScene_no_level_loaded (w : UWorld) (validate : Nat → Bool)
    (i : Nat) (scene : RemoteParametersDecl)
    (h : (processScene w validate i scene).1.streamingLevel = none) :
    (processScene w validate i scene).1.loaded = true := by
  unfold processScene at h ⊢
  by_cases hr : sceneContentReady w (findStreamingLevelByName w scene.name) = true
  · simp [hr]
  · simp only [Bool.not_eq_true] at hr
    simp [hr] at h
    rw [h] at hr
    simp [sceneContentReady] at hr

theorem mem_processScenes (w : UWorld) (validate : Nat → Bool) (i0 : Nat)
    (scenes : List RemoteParametersDecl) (p : SchemaSpec × Option Bool)
    (hp : p ∈ processScenes w validate i0 scenes) :
    ∃ i scene, p = processScene w validate i scene := by
  induction scenes generalizing i0 with
  | nil => simp [processScenes] at hp
  | cons head tail ih =>
    simp only [processScenes, List.mem_cons] at hp
    cases hp with
    | inl h => exact ⟨i0, head, h⟩
    | inr h => exact ih (i0 + 1) h

/-- C6: `ApplyScene` on an out-of-range scene index reports the error and is
a no-op: the world (including every level's visibility), every binding's
`loaded` flag and validation state are all unchanged, no load is requested,
no parameters are applied and no validation runs. -/
theorem applyScene_out_of_range (w : UWorld) (specs : List SchemaSpec)
    (validate : Nat → Bool) (sceneId : Nat) (h : specs.length ≤ sceneId) :
    ApplyScene w specs validate sceneId =
      { world := w, specs := specs, outOfRangeError := true,
        checkFailed := false, loadRequested := false, appliedParams := none,
        validated := none } := by
  have hn : specs[sceneId]? = none := List.getElem?_eq_none h
  simp [ApplyScene, hn]

/-- Witness for C6: scene index 2 against the two demo bindings. -/
theorem applyScene_out_of_range_witness :
    ApplyScene (demoWorld false) demoSpecs (fun _ => true) 2 =
      { world := demoWorld false, specs := demoSpecs, outOfRangeError := true,
        checkFailed := false, loadRequested := false, appliedParams := none,
        validated := none } :=
  applyScene_out_of_range (demoWorld false) demoSpecs (fun _ => true) 2
    (by decide)

/-- C5: on an in-range binding that is not loaded and whose streaming level
is not yet loaded, `ApplyScene` requests the asynchronous load and returns
with nothing else changed (no activation, no parameters applied, no
validation) — so calling it every frame while the load is pending is safe;
once the level reports loaded, the same call marks the binding loaded, runs
validation, applies the scene's parameters (persistent root plus the level's
script actor) and makes the scene's level visible while every other
streaming level is hidden. -/
theorem applyScene_async_load (w : UWorld) (specs : List SchemaSpec)
    (validate : Nat → Bool) (sceneId : Nat) (spec0 : SchemaSpec) (idx : Nat)
    (hs : specs[sceneId]? = some spec0) (hl : spec0.loaded = false)
    (hsl : spec0.streamingLevel = some idx) :
    (levelIsLoadedAt w idx = false →
      ApplyScene w specs validate sceneId =
        { world := w, specs := specs, outOfRangeError := false,
          checkFailed := false, loadRequested := true, appliedParams := none,
          validated := none }) ∧
    (levelIsLoadedAt w idx = true →
      (ApplyScene w specs validate sceneId).specs =
        specs.set sceneId { spec0 with loaded := true } ∧
      (ApplyScene w specs validate sceneId).validated =
        some (validate sceneId) ∧
      (ApplyScene w specs validate sceneId).loadRequested = false ∧
      (ApplyScene w specs validate sceneId).appliedParams =
        (w.streamingLevels[idx]?).map
          (fun l => [spec0.persistentRoot, l.levelScriptActor]) ∧
      (∀ j l,
        (ApplyScene w specs validate sceneId).world.streamingLevels[j]? = some l →
        (j = idx → l.shouldBeVisible = true) ∧
        (j ≠ idx → l.shouldBeVisible = false))) := by
  constructor
  · intro hnl
    simp [ApplyScene, hs, hl, hsl, hnl]
  · intro hld
    obtain ⟨l0, hw, hload⟩ := levelIsLoadedAt_eq_true w idx hld
    have happ : ApplyScene w specs validate sceneId =
        activate w (specs.set sceneId { spec0 with loaded := true })
          { spec0 with loaded := true } (some (validate sceneId)) := by
      simp [ApplyScene, hs, hl, hsl, hld]
    have hsl1 : ({ spec0 with loaded := true } : SchemaSpec).streamingLevel =
        some idx := hsl
    rw [happ, activate_nonbase w _ _ _ idx hsl1]
    refine ⟨rfl, rfl, rfl, ?_, ?_⟩
    · simp [loopApplied, hsl, hw, hload]
    · intro j l hjl
      simp only at hjl
      rw [activateLevels_getElem?] at hjl
      simp only [Nat.zero_add] at hjl
      cases hw2 : w.streamingLevels[j]? with
      | none => rw [hw2] at hjl; simp at hjl
      | some l1 =>
        rw [hw2] at hjl
        simp only [Option.map_some'] at hjl
        have hleq : l = activateLevel { spec0 with loaded := true } j l1 :=
          (Option.some_inj.mp hjl).symm
        constructor
        · intro hji
          subst hji
          rw [hw] at hw2
          have hl10 : l0 = l1 := Option.some_inj.mp hw2
          rw [hleq]
          simp [activateLevel, hsl, ← hl10, hload]
        · intro hji
          rw [hleq]
          simp [activateLevel, hsl, Ne.symm hji]

/-- Witness for C5: `Forest` (binding 1) before and after its level loads. -/
theorem applyScene_async_load_witness :
    ApplyScene (demoWorld false) demoSpecs (fun _ => true) 1 =
      { world := demoWorld false, specs := demoSpecs, outOfRangeError := false,
        checkFailed := false, loadRequested := true, appliedParams := none,
        validated := none } ∧
    (ApplyScene (demoWorld true) demoSpecs (fun _ => true) 1).specs =
      demoSpecs.set 1 { forestSpec with loaded := true } ∧
    (ApplyScene (demoWorld true) demoSpecs (fun _ => true) 1).validated =
      some true ∧
    (ApplyScene (demoWorld true) demoSpecs (fun _ => true) 1).loadRequested =
      false ∧
    (ApplyScene (demoWorld true) demoSpecs (fun _ => true) 1).appliedParams =
      ((demoWorld true).streamingLevels[1 - 1]?).map
        (fun l => [forestSpec.persistentRoot, l.levelScriptActor]) :=
  have h1 := applyScene_async_load (demoWorld false) demoSpecs (fun _ => true)
    1 forestSpec 0 (by decide) rfl rfl
  have h2 := applyScene_async_load (demoWorld true) demoSpecs (fun _ => true)
    1 forestSpec 0 (by decide) rfl rfl
  ⟨h1.1 (by decide), (h2.2 (by decide)).1, (h2.2 (by decide)).2.1,
   (h2.2 (by decide)).2.2.1, (h2.2 (by decide)).2.2.2.1⟩

/-- C7: `OnLoadedSchema` processes every scene of the schema: a scene whose
streaming level is loaded or which matches no streaming level is validated
synchronously (the `ValidateLevel` outcome is recorded, and neither it nor
any other scene's outcome affects the processing of the rest); a scene whose
level exists but is not loaded is left unvalidated with `loaded = false`
(validation deferred until the content loads); and the call returns success
unconditionally, regardless of per-scene validation failures. -/
theorem onLoadedSchema_per_scene (w : UWorld)
    (scenes : List RemoteParametersDecl) (validate : Nat → Bool) :
    (OnLoadedSchema w scenes validate).ok = true ∧
    (OnLoadedSchema w scenes validate).specs.length = scenes.length ∧
    (OnLoadedSchema w scenes validate).validations.length = scenes.length ∧
    ∀ i scene, scenes[i]? = some scene →
      (sceneContentReady w (findStreamingLevelByName w scene.name) = true →
        (OnLoadedSchema w scenes validate).validations[i]? =
          some (some (validate i)) ∧
        (OnLoadedSchema w scenes validate).specs[i]? = some
          { streamingLevel := findStreamingLevelByName w scene.name,
            persistentRoot := w.persistentRootActor, hash := scene.hash,
            nParameters := scene.nParameters, loaded := true }) ∧
      (sceneContentReady w (findStreamingLevelByName w scene.name) = false →
        (OnLoadedSchema w scenes validate).validations[i]? = some none ∧
        (OnLoadedSchema w scenes validate).specs[i]? = some
          { streamingLevel := findStreamingLevelByName w scene.name,
            persistentRoot := w.persistentRootActor, hash := scene.hash,
            nParameters := scene.nParameters, loaded := false }) := by
  refine ⟨rfl, ?_, ?_, ?_⟩
  · simp [OnLoadedSchema, processScenes_length]
  · simp [OnLoadedSchema, processScenes_length]
  · intro i scene hsc
    constructor
    · intro hready
      constructor
      · simp [OnLoadedSchema, processScenes_getElem?, hsc, processScene, hready]
      · simp [OnLoadedSchema, processScenes_getElem?, hsc, processScene, hready]
    · intro hready
      constructor
      · simp [OnLoadedSchema, processScenes_getElem?, hsc, processScene, hready]
      · simp [OnLoadedSchema, processScenes_getElem?, hsc, processScene, hready]

/-- Witness for C7: `Base` (no matching level) is validated synchronously
with a failing validator while `Forest` (level not loaded) is deferred, and
the call still succeeds. -/
theorem onLoadedSchema_per_scene_witness :
    (OnLoadedSchema (demoWorld false) demoScenes (fun _ => false)).ok = true ∧
    (OnLoadedSchema (demoWorld false) demoScenes
        (fun _ => false)).validations[0]? = some (some false) ∧
    (OnLoadedSchema (demoWorld false) demoScenes
        (fun _ => false)).validations[1]? = some none :=
  have h := onLoadedSchema_per_scene (demoWorld false) demoScenes
    (fun _ => false)
  ⟨h.1,
   ((h.2.2.2 0 { name := "Base", nParameters := 2, hash := 11 } (by decide)).1
      (by decide)).1,
   ((h.2.2.2 1 { name := "Forest", nParameters := 3, hash := 12 }
      (by decide)).2 (by decide)).1⟩

/-- C9: after `OnLoadedSchema` every binding whose `streamingLevel` is null
is marked loaded, and consequently on any binding list satisfying that
invariant the `check(spec.streamingLevel != nullptr)` assertion inside
`ApplyScene` (reached only when the binding is not loaded) can never fail,
for any scene index. -/
theorem applyScene_check_never_fails (w : UWorld)
    (scenes : List RemoteParametersDecl) (validate : Nat → Bool)
    (specs : List SchemaSpec) :
    (∀ spec ∈ (OnLoadedSchema w scenes validate).specs,
        spec.streamingLevel = none → spec.loaded = true) ∧
    ((∀ spec ∈ specs, spec.streamingLevel = none → spec.loaded = true) →
      ∀ sceneId, (ApplyScene w specs validate sceneId).checkFailed = false) := by
  constructor
  · intro spec hspec hnone
    simp only [OnLoadedSchema, List.mem_map] at hspec
    obtain ⟨p, hp, hfst⟩ := hspec
    obtain ⟨i, scene, rfl⟩ := mem_processScenes w validate 0 scenes p hp
    subst hfst
    exact processScene_no_level_loaded w validate i scene hnone
  · intro hinv sceneId
    cases hs : specs[sceneId]? with
    | none => simp [ApplyScene, hs]
    | some spec0 =>
      have hmem : spec0 ∈ specs := List.getElem?_mem hs
      by_cases hld : spec0.loaded = true
      · simp [ApplyScene, hs, hld, activate_checkFailed]
      · simp only [Bool.not_eq_true] at hld
        cases hsl : spec0.streamingLevel with
        | none =>
          have := hinv spec0 hmem hsl
          rw [hld] at this
          exact absurd this (by simp)
        | some idx =>
          by_cases hll : levelIsLoadedAt w idx = true
          · simp [ApplyScene, hs, hld, hsl, hll, activate_checkFailed]
          · simp only [Bool.not_eq_true] at hll
            simp [ApplyScene, hs, hld, hsl, hll]

/-- Witness for C9: the invariant holds for the demo bindings and the
assertion flag stays clear at scene index 1. -/
theorem applyScene_check_never_fails_witness :
    (ApplyScene (demoWorld false) demoSpecs (fun _ => false) 1).checkFailed =
      false :=
  (applyScene_check_never_fails (demoWorld false) demoScenes (fun _ => false)
    demoSpecs).2 (by decide) 1

/-- C10: `GenerateScene` sets `nParameters` to the persistent cache's
exposed-parameter count (0 when there is no persistent cache) plus the scene
cache's count, and fills the parameter array with exactly the converted
persistent parameters followed by the converted scene-cache parameters, each
sub-list in its original order, with every field (group, displayName, key,
min, max, step, defaultValue, options) copied from the corresponding cache
entry. -/
theorem generateScene_parameters (cache : ChannelCacheAsset)
    (persistent : Option ChannelCacheAsset) :
    (GenerateScene cache persistent).nParameters =
      (persistentParams persistent).length + cache.ExposedParams.length ∧
    (GenerateScene cache persistent).parameters =
      (persistentParams persistent).map convertField ++
        cache.ExposedParams.map convertField ∧
    (GenerateScene cache persistent).parameters.length =
      (GenerateScene cache persistent).nParameters ∧
    persistentParams none = [] ∧
    (∀ c : ChannelCacheAsset, persistentParams (some c) = c.ExposedParams) ∧
    ∀ e : FRenderStreamExposedParameterEntry,
      (convertField e).group = e.Group ∧
      (convertField e).displayName = e.DisplayName ∧
      (convertField e).key = e.Key ∧
      (convertField e).min = e.Min ∧
      (convertField e).max = e.Max ∧
      (convertField e).step = e.Step ∧
      (convertField e).defaultValue = e.DefaultValue ∧
      (convertField e).nOptions = e.Options.length ∧
      (convertField e).options = e.Options := by
  refine ⟨rfl, rfl, ?_, rfl, fun c => rfl,
    fun e => ⟨rfl, rfl, rfl, rfl, rfl, rfl, rfl, rfl, rfl⟩⟩
  simp [GenerateScene, ConvertFields]
